import Mathlib

/-!
# Verification of the MMM-RINGFixed node helper

A shallow embedding of `src/node_helper.js` (the MagicMirror MMM-Ring node
helper).  The helper runs on a single-threaded event loop: every subscriber
callback, timer callback and `await`-continuation runs to completion without
preemption.  We model the mutable fields of the helper as an explicit record
`HelperState`, and each run-to-completion handler segment as a total step
function on that record; an execution is a fold of the step over a list of
`Event`s.  Ghost fields (attempt history, watcher generations, timer owners,
recorded stop requests) instrument the model for the stated properties
without altering the control flow translated from the source.

The credential-rotation subscriber and the output-directory cleaner are pure
enough to be modelled directly as functions on strings and on a small
filesystem value; they appear after the event-loop model.
-/

namespace MMMRing

/-- The recognized configuration options of the `BEGIN_RING_MONITORING`
payload (`this.config` in the source). -/
structure Config where
  ring2faRefreshToken : String
  ringStreamMotion : Bool
  ringMinutesToStreamVideo : Nat
  deriving DecidableEq

/-- The socket notifications the helper can send
(`this.sendSocketNotification(...)` in the source). -/
inductive Notif
  | videoStreamAvailable
  | videoStreamEnded
  | displayError
  deriving DecidableEq

/-- The in-flight continuation of `startSession`: `cleaning` while awaiting
`cleanUpVideoStreamDirectory`, `creating` while awaiting
`createRtpStreamingSession`, `idle` otherwise. -/
inductive Phase
  | idle
  | cleaning
  | creating
  deriving DecidableEq

/-- Ghost record of the lifecycle state of one streaming attempt, as the
Session abstraction of the spec: `starting` from acceptance until the external session
handle is returned, `active` while the handle is live, `idle` when the
attempt is over (or rolled back by a creation failure). -/
inductive AState
  | idle
  | starting
  | active
  deriving DecidableEq

/-- A trigger delivered by a camera subscription: a doorbell press
(`onDoorbellPressed`), or a motion event (`onMotionDetected`) carrying its
boolean "motion currently active" payload. -/
inductive TriggerKind
  | ring
  | motion (isActive : Bool)
  deriving DecidableEq

/-- A pending `setTimeout` timer.  `owner` is ghost data recording, for a
session timer, the session handle current when it was armed, and for a
watcher timer, the watcher generation it was armed together with.
`duration` is the millisecond delay passed to `setTimeout`. -/
structure Timer where
  owner : Nat
  duration : Nat
  deriving DecidableEq

/-- One run-to-completion handler activation on the event loop. -/
inductive Event
  /-- a camera subscription fires (doorbell press or motion event) -/
  | trigger (kind : TriggerKind)
  /-- the `await cleanUpVideoStreamDirectory()` inside `startSession`
  resolves; the continuation arms the watcher and requests session creation -/
  | cleanupDone
  /-- the await of `createRtpStreamingSession` resolves with a live handle -/
  | createOk
  /-- the await of `createRtpStreamingSession` rejects; the `catch` block runs -/
  | createFail
  /-- the chokidar watcher delivers an `add` event for `path` -/
  | fileAdd (path : String)
  /-- the external `onCallEnded` observable of handle `sid` fires -/
  | callEnded (sid : Nat)
  /-- the pending session timeout armed for handle `owner` fires -/
  | sessionTimerFire (owner : Nat)
  /-- the pending 15-second watcher timeout armed for generation `owner`
  fires -/
  | watcherTimerFire (owner : Nat)
  deriving DecidableEq

/-- The mutable module state of the helper (the `this.*` fields set in `start`),
plus pending timers and ghost instrumentation. -/
structure HelperState where
  config : Config
  /-- field `this.sipSession`: the current external session handle, as an id -/
  sipSession : Option Nat
  /-- field `this.sessionRunning` -/
  sessionRunning : Bool
  /-- field `this.watcher`: the active chokidar watcher, as its generation id -/
  watcher : Option Nat
  /-- in-flight `startSession` continuation -/
  phase : Phase
  /-- pending session-timeout timers (never cleared by the source) -/
  sessionTimers : List Timer
  /-- pending 15-second watcher timers (never cleared by the source) -/
  watcherTimers : List Timer
  /-- notifications sent so far, oldest first -/
  emitted : List Notif
  /-- number of `toLog` calls -/
  logs : Nat
  /-- ghost: fresh watcher generation counter -/
  nextGen : Nat
  /-- ghost: fresh session handle counter -/
  nextSid : Nat
  /-- ghost: one entry per accepted trigger, newest first -/
  attempts : List AState
  /-- ghost: watcher generation recorded at each `VIDEO_STREAM_AVAILABLE`
  emission, oldest first -/
  availGens : List Nat
  /-- ghost: each `this.sipSession.stop()` call made by a session timer,
  as (timer owner, handle stopped), oldest first -/
  stopRequests : List (Nat × Nat)
  deriving DecidableEq

/-- Constant `this.audioPlaylistFile = "stream.m3u8"` from `start`. -/
def audioPlaylistFile : String := "stream.m3u8"

/-- Computation `filePath.split("\\").pop().split("/").pop()` from the `add`
handler of the watcher. -/
def addBaseName (p : String) : String :=
  (((p.splitOn "\x5c").getLastD "").splitOn "/").getLastD ""

/-- Replace the head of the ghost attempt list (the current attempt). -/
def setHead (l : List AState) (a : AState) : List AState :=
  match l with
  | [] => []
  | _ :: t => a :: t

/-- Remove the first pending timer with the given owner. -/
def removeTimer (ts : List Timer) (o : Nat) : List Timer :=
  match ts with
  | [] => []
  | t :: rest => if t.owner = o then rest else t :: removeTimer rest o

/-- Function `stopWatchingFile`: closes the current watcher if any (idempotent); it
does not touch the pending watcher timers — the source never calls
`clearTimeout`. -/
def stopWatchingFile (s : HelperState) : HelperState :=
  { s with watcher := none }

/-- Function `watchForStreamStarted`: closes any previous watcher, arms a fresh
15-second (`15 * 1000` ms) timeout whose callback is `stopWatchingFile`,
and starts a new chokidar watcher on the output directory. -/
def watchForStreamStarted (s : HelperState) : HelperState :=
  let s1 := stopWatchingFile s
  { s1 with
      watcherTimers := ⟨s1.nextGen, 15 * 1000⟩ :: s1.watcherTimers
      watcher := some s1.nextGen
      nextGen := s1.nextGen + 1 }

/-- The synchronous prefix of `startSession` (lines 144-152): the admission
check `if (this.sipSession || this.sessionRunning === true) return;`, then
`this.sessionRunning = true;` and a log line, all before the first `await`.
An accepted trigger pushes a fresh `starting` ghost attempt. -/
def startSessionSync (s : HelperState) : HelperState :=
  if s.sipSession.isSome || s.sessionRunning then s
  else
    { s with
        sessionRunning := true
        phase := Phase.cleaning
        logs := s.logs + 1
        attempts := AState.starting :: s.attempts }

/-- A camera subscription firing.  The doorbell subscriber guards with
`if (!this.sipSession)`; the motion subscriber exists only when
`config.ringStreamMotion` and additionally requires a truthy `motion`
payload.  Both then enter the synchronous head of `startSession`. -/
def triggerStep (s : HelperState) : TriggerKind → HelperState
  | TriggerKind.ring =>
      if s.sipSession = none then startSessionSync s else s
  | TriggerKind.motion isActive =>
      if s.config.ringStreamMotion && isActive then
        (if s.sipSession = none then startSessionSync s else s)
      else s

/-- The continuation of `startSession` after
`await this.cleanUpVideoStreamDirectory()` resolves: it calls
`watchForStreamStarted()` synchronously and then starts awaiting
`createRtpStreamingSession`. -/
def cleanupDoneStep (s : HelperState) : HelperState :=
  if s.phase = Phase.cleaning then
    { watchForStreamStarted s with phase := Phase.creating }
  else s

/-- The continuation after `createRtpStreamingSession` resolves: store the
handle in `this.sipSession`, subscribe `onCallEnded`, and arm the session
timeout `setTimeout(..., this.config.ringMinutesToStreamVideo * 60 * 1000)`.
The ghost attempt becomes `active`. -/
def createOkStep (s : HelperState) : HelperState :=
  if s.phase = Phase.creating then
    { s with
        sipSession := some s.nextSid
        nextSid := s.nextSid + 1
        phase := Phase.idle
        sessionTimers :=
          ⟨s.nextSid, s.config.ringMinutesToStreamVideo * 60 * 1000⟩ ::
            s.sessionTimers
        attempts := setHead s.attempts AState.active }
  else s

/-- The `catch` block of `startSession`: log the error and release the
exclusivity flag (`this.sessionRunning = false`).  Nothing else: no
notification is sent, the watcher is not closed, no retry is scheduled.
The ghost attempt rolls back to `idle`. -/
def createFailStep (s : HelperState) : HelperState :=
  if s.phase = Phase.creating then
    { s with
        phase := Phase.idle
        sessionRunning := false
        logs := s.logs + 1
        attempts := setHead s.attempts AState.idle }
  else s

/-- The chokidar `add` handler: compute the base name of the path; when it
equals `stream.m3u8`, call `stopWatchingFile()` and send
`VIDEO_STREAM_AVAILABLE`.  Only the currently open watcher delivers events;
a closed watcher delivers none. -/
def fileAddStep (s : HelperState) (path : String) : HelperState :=
  match s.watcher with
  | none => s
  | some g =>
      if addBaseName path = audioPlaylistFile then
        { s with
            watcher := none
            emitted := s.emitted ++ [Notif.videoStreamAvailable]
            availGens := s.availGens ++ [g] }
      else s

/-- The `onCallEnded` subscriber registered on the created handle: log,
send `VIDEO_STREAM_ENDED`, `stopWatchingFile()`, clear `this.sipSession`,
clear `this.sessionRunning`.  The external contract fires it once per
created handle, so it is delivered only while that handle is current. -/
def callEndedStep (s : HelperState) (sid : Nat) : HelperState :=
  if s.sipSession = some sid then
    { s with
        logs := s.logs + 1
        emitted := s.emitted ++ [Notif.videoStreamEnded]
        watcher := none
        sipSession := none
        sessionRunning := false
        attempts := setHead s.attempts AState.idle }
  else s

/-- A pending session timeout firing: its callback is
`if (this.sipSession) { this.sipSession.stop(); }` — it reads whatever
handle is current at firing time, with no check that it is the handle the
timer was armed for.  The `stop()` request is recorded as ghost data. -/
def sessionTimerFireStep (s : HelperState) (o : Nat) : HelperState :=
  if (s.sessionTimers.any fun t => t.owner = o) then
    { s with
        sessionTimers := removeTimer s.sessionTimers o
        stopRequests := s.stopRequests ++
          (match s.sipSession with
           | some cur => [(o, cur)]
           | none => []) }
  else s

/-- A pending watcher timeout firing: its callback is
`() => this.stopWatchingFile()`, closing whatever watcher is current at
firing time.  It emits nothing. -/
def watcherTimerFireStep (s : HelperState) (o : Nat) : HelperState :=
  if (s.watcherTimers.any fun t => t.owner = o) then
    stopWatchingFile { s with watcherTimers := removeTimer s.watcherTimers o }
  else s

/-- One run-to-completion handler activation. -/
def step (s : HelperState) : Event → HelperState
  | Event.trigger k => triggerStep s k
  | Event.cleanupDone => cleanupDoneStep s
  | Event.createOk => createOkStep s
  | Event.createFail => createFailStep s
  | Event.fileAdd p => fileAddStep s p
  | Event.callEnded sid => callEndedStep s sid
  | Event.sessionTimerFire o => sessionTimerFireStep s o
  | Event.watcherTimerFire o => watcherTimerFireStep s o

/-- The helper state right after `start` ran and monitoring began with
configuration `cfg`. -/
def init (cfg : Config) : HelperState :=
  { config := cfg
    sipSession := none
    sessionRunning := false
    watcher := none
    phase := Phase.idle
    sessionTimers := []
    watcherTimers := []
    emitted := []
    logs := 0
    nextGen := 0
    nextSid := 0
    attempts := []
    availGens := []
    stopRequests := [] }

/-- Execute a sequence of handler activations. -/
def run (s : HelperState) (evs : List Event) : HelperState :=
  evs.foldl step s

/-- Number of ghost attempts whose Session state is not Idle. -/
def nonIdleCount (l : List AState) : Nat :=
  l.countP fun a => decide (a ≠ AState.idle)

theorem nonIdleCount_nil : nonIdleCount [] = 0 := rfl

theorem nonIdleCount_cons (a : AState) (l : List AState) :
    nonIdleCount (a :: l) =
      (if a = AState.idle then 0 else 1) + nonIdleCount l := by
  unfold nonIdleCount
  rw [List.countP_cons]
  rcases a <;> simp <;> omega

theorem setHead_tail (l : List AState) (a : AState) :
    (setHead l a).tail = l.tail := by
  cases l <;> rfl

theorem nonIdleCount_setHead_idle (l : List AState) :
    nonIdleCount (setHead l AState.idle) = nonIdleCount l.tail := by
  cases l with
  | nil => rfl
  | cons b t => rw [setHead, nonIdleCount_cons]; simp

theorem nonIdleCount_setHead_le (l : List AState) (a : AState) :
    nonIdleCount (setHead l a) ≤ 1 + nonIdleCount l.tail := by
  cases l with
  | nil => simp [setHead, nonIdleCount_nil]
  | cons b t => rw [setHead, nonIdleCount_cons]; split <;> simp

/-- The exclusivity invariant behind C1: every attempt but the current one
is Idle; when the `sessionRunning` flag is clear every attempt is Idle; and
while a `startSession` continuation is in flight the flag is held and no
session handle is stored yet. -/
def InvA (s : HelperState) : Prop :=
  nonIdleCount s.attempts.tail = 0 ∧
  (s.sessionRunning = false → nonIdleCount s.attempts = 0) ∧
  (s.phase ≠ Phase.idle → s.sessionRunning = true ∧ s.sipSession = none)

theorem invA_startSessionSync {s : HelperState} (h : InvA s) :
    InvA (startSessionSync s) := by
  obtain ⟨h1, h2, h3⟩ := h
  simp only [startSessionSync]
  split
  · exact ⟨h1, h2, h3⟩
  · rename_i hg
    have hrun : s.sessionRunning = false := by
      cases hr : s.sessionRunning
      · rfl
      · exact absurd (by rw [hr, Bool.or_true]) hg
    have hsip : s.sipSession = none := by
      cases hs : s.sipSession with
      | none => rfl
      | some v => exact absurd (by rw [hs]; simp) hg
    refine ⟨?_, ?_, ?_⟩
    · exact h2 hrun
    · exact fun hc => Bool.noConfusion hc
    · exact fun _ => ⟨rfl, hsip⟩

theorem invA_triggerStep {s : HelperState} (k : TriggerKind) (h : InvA s) :
    InvA (triggerStep s k) := by
  cases k with
  | ring =>
      simp only [triggerStep]
      split
      · exact invA_startSessionSync h
      · exact h
  | motion b =>
      simp only [triggerStep]
      split
      · split
        · exact invA_startSessionSync h
        · exact h
      · exact h

theorem invA_cleanupDoneStep {s : HelperState} (h : InvA s) :
    InvA (cleanupDoneStep s) := by
  obtain ⟨h1, h2, h3⟩ := h
  simp only [cleanupDoneStep, watchForStreamStarted, stopWatchingFile]
  split
  · rename_i hp
    obtain ⟨hrun, hsip⟩ := h3 (by rw [hp]; exact fun hc => Phase.noConfusion hc)
    refine ⟨h1, ?_, ?_⟩
    · exact fun hc => Bool.noConfusion (hrun.symm.trans hc)
    · exact fun _ => ⟨hrun, hsip⟩
  · exact ⟨h1, h2, h3⟩

theorem invA_createOkStep {s : HelperState} (h : InvA s) :
    InvA (createOkStep s) := by
  obtain ⟨h1, h2, h3⟩ := h
  simp only [createOkStep]
  split
  · rename_i hp
    obtain ⟨hrun, _⟩ := h3 (by rw [hp]; exact fun hc => Phase.noConfusion hc)
    refine ⟨?_, ?_, ?_⟩
    · exact (setHead_tail s.attempts AState.active) ▸ h1
    · exact fun hc => Bool.noConfusion (hrun.symm.trans hc)
    · exact fun hc => absurd rfl hc
  · exact ⟨h1, h2, h3⟩

theorem invA_createFailStep {s : HelperState} (h : InvA s) :
    InvA (createFailStep s) := by
  obtain ⟨h1, h2, h3⟩ := h
  simp only [createFailStep]
  split
  · refine ⟨?_, ?_, ?_⟩
    · exact (setHead_tail s.attempts AState.idle) ▸ h1
    · exact fun _ => (nonIdleCount_setHead_idle s.attempts).trans h1
    · exact fun hc => absurd rfl hc
  · exact ⟨h1, h2, h3⟩

theorem invA_fileAddStep {s : HelperState} (p : String) (h : InvA s) :
    InvA (fileAddStep s p) := by
  obtain ⟨h1, h2, h3⟩ := h
  simp only [fileAddStep]
  split
  · exact ⟨h1, h2, h3⟩
  · split
    · exact ⟨h1, h2, fun hp => h3 hp⟩
    · exact ⟨h1, h2, h3⟩

theorem invA_callEndedStep {s : HelperState} (sid : Nat) (h : InvA s) :
    InvA (callEndedStep s sid) := by
  obtain ⟨h1, h2, h3⟩ := h
  simp only [callEndedStep]
  split
  · rename_i hsid
    refine ⟨?_, ?_, ?_⟩
    · exact (setHead_tail s.attempts AState.idle) ▸ h1
    · exact fun _ => (nonIdleCount_setHead_idle s.attempts).trans h1
    · intro hp
      exfalso
      obtain ⟨_, hnone⟩ := h3 hp
      exact Option.noConfusion (hnone.symm.trans hsid)
  · exact ⟨h1, h2, h3⟩

theorem invA_sessionTimerFireStep {s : HelperState} (o : Nat) (h : InvA s) :
    InvA (sessionTimerFireStep s o) := by
  obtain ⟨h1, h2, h3⟩ := h
  simp only [sessionTimerFireStep]
  split
  · exact ⟨h1, h2, fun hp => h3 hp⟩
  · exact ⟨h1, h2, h3⟩

theorem invA_watcherTimerFireStep {s : HelperState} (o : Nat) (h : InvA s) :
    InvA (watcherTimerFireStep s o) := by
  obtain ⟨h1, h2, h3⟩ := h
  simp only [watcherTimerFireStep, stopWatchingFile]
  split
  · exact ⟨h1, h2, fun hp => h3 hp⟩
  · exact ⟨h1, h2, h3⟩

theorem invA_step {s : HelperState} (e : Event) (h : InvA s) :
    InvA (step s e) := by
  cases e with
  | trigger k => exact invA_triggerStep k h
  | cleanupDone => exact invA_cleanupDoneStep h
  | createOk => exact invA_createOkStep h
  | createFail => exact invA_createFailStep h
  | fileAdd p => exact invA_fileAddStep p h
  | callEnded sid => exact invA_callEndedStep sid h
  | sessionTimerFire o => exact invA_sessionTimerFireStep o h
  | watcherTimerFire o => exact invA_watcherTimerFireStep o h

theorem invA_init (cfg : Config) : InvA (init cfg) := by
  refine ⟨rfl, fun _ => rfl, fun hc => absurd rfl hc⟩

theorem invA_run {s : HelperState} (evs : List Event) (h : InvA s) :
    InvA (run s evs) := by
  induction evs generalizing s with
  | nil => exact h
  | cons e rest ih => exact ih (invA_step e h)

theorem invA_nonIdle_le_one {s : HelperState} (h : InvA s) :
    nonIdleCount s.attempts ≤ 1 := by
  obtain ⟨h1, _, _⟩ := h
  cases hl : s.attempts with
  | nil => simp [nonIdleCount_nil]
  | cons a t =>
      rw [nonIdleCount_cons]
      have : nonIdleCount t = 0 := by
        have := h1
        rw [hl] at this
        simpa using this
      rw [this]
      split <;> omega

theorem count_append_single (l : List Nat) (a g : Nat) :
    (l ++ [a]).count g = l.count g + (if g = a then 1 else 0) := by
  rw [List.count_append]
  by_cases hga : g = a
  · subst hga; simp
  · simp [hga, Ne.symm hga]

/-- The at-most-once-readiness invariant behind C2: every watcher generation
has at most one recorded `VIDEO_STREAM_AVAILABLE` emission; the currently
armed generation has none yet and is below the freshness counter; unused
generations have none. -/
def InvB (s : HelperState) : Prop :=
  (∀ g, s.availGens.count g ≤ 1) ∧
  (∀ g, s.watcher = some g → s.availGens.count g = 0 ∧ g < s.nextGen) ∧
  (∀ g, s.nextGen ≤ g → s.availGens.count g = 0)

theorem invB_startSessionSync {s : HelperState} (h : InvB s) :
    InvB (startSessionSync s) := by
  obtain ⟨h1, h2, h3⟩ := h
  simp only [startSessionSync]
  split
  · exact ⟨h1, h2, h3⟩
  · exact ⟨h1, h2, h3⟩

theorem invB_step {s : HelperState} (e : Event) (h : InvB s) :
    InvB (step s e) := by
  obtain ⟨h1, h2, h3⟩ := h
  cases e with
  | trigger k =>
      cases k with
      | ring =>
          simp only [step, triggerStep]
          split
          · exact invB_startSessionSync ⟨h1, h2, h3⟩
          · exact ⟨h1, h2, h3⟩
      | motion b =>
          simp only [step, triggerStep]
          split
          · split
            · exact invB_startSessionSync ⟨h1, h2, h3⟩
            · exact ⟨h1, h2, h3⟩
          · exact ⟨h1, h2, h3⟩
  | cleanupDone =>
      simp only [step, cleanupDoneStep, watchForStreamStarted,
        stopWatchingFile]
      split
      · refine ⟨h1, ?_, ?_⟩
        · intro g hg
          dsimp only at hg ⊢
          have hgeq : s.nextGen = g := Option.some.inj hg
          subst hgeq
          exact ⟨h3 _ le_rfl, by omega⟩
        · intro g hge
          dsimp only at hge ⊢
          exact h3 g (by omega)
      · exact ⟨h1, h2, h3⟩
  | createOk =>
      simp only [step, createOkStep]
      split
      · exact ⟨h1, h2, h3⟩
      · exact ⟨h1, h2, h3⟩
  | createFail =>
      simp only [step, createFailStep]
      split
      · exact ⟨h1, h2, h3⟩
      · exact ⟨h1, h2, h3⟩
  | fileAdd p =>
      simp only [step, fileAddStep]
      split
      · exact ⟨h1, h2, h3⟩
      · rename_i g hw
        split
        · obtain ⟨hz, hlt⟩ := h2 g hw
          refine ⟨?_, ?_, ?_⟩
          · intro g'
            rw [count_append_single]
            by_cases hgg : g' = g
            · subst hgg; rw [hz]; simp
            · rw [if_neg hgg]
              have := h1 g'
              omega
          · intro g' hg'
            exact Option.noConfusion hg'
          · intro g' hge
            dsimp only at hge ⊢
            rw [count_append_single]
            have hne : g' ≠ g := by omega
            rw [h3 g' hge, if_neg hne]
        · exact ⟨h1, h2, h3⟩
  | callEnded sid =>
      simp only [step, callEndedStep]
      split
      · exact ⟨h1, fun g hg => Option.noConfusion hg, h3⟩
      · exact ⟨h1, h2, h3⟩
  | sessionTimerFire o =>
      simp only [step, sessionTimerFireStep]
      split
      · exact ⟨h1, h2, h3⟩
      · exact ⟨h1, h2, h3⟩
  | watcherTimerFire o =>
      simp only [step, watcherTimerFireStep, stopWatchingFile]
      split
      · exact ⟨h1, fun g hg => Option.noConfusion hg, h3⟩
      · exact ⟨h1, h2, h3⟩

theorem invB_init (cfg : Config) : InvB (init cfg) := by
  refine ⟨fun g => ?_, fun g hg => Option.noConfusion hg, fun g _ => rfl⟩
  simp [init]

theorem invB_run {s : HelperState} (evs : List Event) (h : InvB s) :
    InvB (run s evs) := by
  induction evs generalizing s with
  | nil => exact h
  | cons e rest ih => exact ih (invB_step e h)

/-- No step records a `VIDEO_STREAM_AVAILABLE` emission for a watcher
generation that is not the currently armed one: once generation `g` has
been disarmed (by `stopWatchingFile`, however reached), no later handler
can ever emit Ready for it (re-arming uses a fresh generation). -/
theorem availCount_stable_of_disarmed {s : HelperState} (e : Event) (g : Nat)
    (h : s.watcher ≠ some g) :
    (step s e).availGens.count g = s.availGens.count g := by
  cases e with
  | trigger k =>
      cases k with
      | ring =>
          simp only [step, triggerStep, startSessionSync]
          split
          · split <;> rfl
          · rfl
      | motion b =>
          simp only [step, triggerStep, startSessionSync]
          split
          · split
            · split <;> rfl
            · rfl
          · rfl
  | cleanupDone =>
      simp only [step, cleanupDoneStep, watchForStreamStarted,
        stopWatchingFile]
      split <;> rfl
  | createOk =>
      simp only [step, createOkStep]
      split <;> rfl
  | createFail =>
      simp only [step, createFailStep]
      split <;> rfl
  | fileAdd p =>
      simp only [step, fileAddStep]
      split
      · rfl
      · rename_i g' hw
        split
        · have hne : g ≠ g' := fun hc => h (hc ▸ hw)
          rw [count_append_single, if_neg hne, Nat.add_zero]
        · rfl
  | callEnded sid =>
      simp only [step, callEndedStep]
      split <;> rfl
  | sessionTimerFire o =>
      simp only [step, sessionTimerFireStep]
      split <;> rfl
  | watcherTimerFire o =>
      simp only [step, watcherTimerFireStep, stopWatchingFile]
      split <;> rfl

/-!
## Credential rotation (`onRefreshTokenUpdated` subscriber)

The subscriber body is
`if (!oldRefreshToken) return;` followed by a read of the `.env` file,
`currentConfig.toString().replace(oldRefreshToken, newRefreshToken)`, and a
write-back.  JavaScript `String.prototype.replace` with a plain-string
pattern substitutes the first occurrence only.
-/

/-- JS `String.prototype.replace(pat, rep)` with a plain-string pattern, on
character lists: replace the first occurrence of `pat` (scanning left to
right); if `pat` does not occur, the string is unchanged. -/
def replaceFirstList (pat rep : List Char) : List Char → List Char
  | [] =>
      if pat.isPrefixOf ([] : List Char) then
        rep ++ ([] : List Char).drop pat.length
      else []
  | c :: s' =>
      if pat.isPrefixOf (c :: s') then rep ++ (c :: s').drop pat.length
      else c :: replaceFirstList pat rep s'

theorem replaceFirstList_eq (pat rep : List Char) (s : List Char) :
    replaceFirstList pat rep s =
      if pat.isPrefixOf s then rep ++ s.drop pat.length
      else
        match s with
        | [] => []
        | c :: s' => c :: replaceFirstList pat rep s' := by
  cases s <;> rfl

/-- JS `String.prototype.replace(pat, rep)` with a plain-string pattern. -/
def replaceFirst (s pat rep : String) : String :=
  String.mk (replaceFirstList pat.data rep.data s.data)

/-- Effect of the rotation subscriber on the stored `.env` content:
`oldRefreshToken` absent or empty (JS falsy) leaves storage untouched;
otherwise the stored content is read, the first occurrence of the old
value is substituted with the new value, and the result written back. -/
def rotateToken (stored : String) (oldRefreshToken : Option String)
    (newRefreshToken : String) : String :=
  match oldRefreshToken with
  | none => stored
  | some o => if o = "" then stored else replaceFirst stored o newRefreshToken

theorem replaceFirstList_at_first (a o b n : List Char)
    (hmin : ∀ i, i < a.length → (o.isPrefixOf ((a ++ (o ++ b)).drop i)) = false) :
    replaceFirstList o n (a ++ (o ++ b)) = a ++ (n ++ b) := by
  induction a with
  | nil =>
      have hpre : o.isPrefixOf (o ++ b) = true := by
        rw [ List.isPrefixOf_iff_prefix]
        exact List.prefix_append o b
      rw [List.nil_append, List.nil_append, replaceFirstList_eq, if_pos hpre,
        List.drop_left]
  | cons c a' ih =>
      have h0 := hmin 0 (by simp)
      rw [List.drop_zero, List.cons_append] at h0
      have hmin' : ∀ i, i < a'.length →
          (o.isPrefixOf ((a' ++ (o ++ b)).drop i)) = false := by
        intro i hi
        have := hmin (i + 1) (by simpa using Nat.succ_lt_succ hi)
        simpa using this
      have hneg : ¬ (o.isPrefixOf (c :: (a' ++ (o ++ b))) = true) := by
        rw [h0]; exact Bool.noConfusion
      rw [List.cons_append, replaceFirstList_eq, if_neg hneg]
      show c :: replaceFirstList o n (a' ++ (o ++ b)) = (c :: a') ++ (n ++ b)
      rw [ih hmin', List.cons_append]

/-!
## Output directory cleaning (`cleanUpVideoStreamDirectory`)

`fs.exists` / `fs.mkdir` when the directory is absent, then `fs.readdir`
and one `fs.unlink` per listed entry.  `Promise.all` of the independent
per-entry unlinks is modelled as their sequential completion (the entries
are distinct directory members).  `none` models an absent directory,
`some es` a directory holding entries `es`.
-/

/-- One directory entry: a name, and whether it is a plain file (a
directory entry makes `fs.unlink` fail). -/
structure Entry where
  name : String
  isFile : Bool
  deriving DecidableEq

/-- Model of `fs.unlink(dir/n)`: remove the first entry named `n`; errors when the
name is absent or names a non-file. -/
def unlinkEntry (es : List Entry) (n : String) : Except String (List Entry) :=
  match es with
  | [] => Except.error "ENOENT"
  | e :: rest =>
      if e.name = n then
        (if e.isFile then Except.ok rest else Except.error "EISDIR")
      else
        (unlinkEntry rest n).map (fun r => e :: r)

/-- Completion of the unlink promises, in order; the first failure
rejects the whole `Promise.all`. -/
def unlinkAll (es : List Entry) (names : List String) :
    Except String (List Entry) :=
  match names with
  | [] => Except.ok es
  | n :: rest =>
      match unlinkEntry es n with
      | Except.ok es' => unlinkAll es' rest
      | Except.error msg => Except.error msg

/-- Model of `cleanUpVideoStreamDirectory`: create the directory when absent, then
delete every entry `fs.readdir` listed. -/
def cleanUpVideoStreamDirectory (dir : Option (List Entry)) :
    Except String (Option (List Entry)) :=
  match dir with
  | none => (unlinkAll [] (([] : List Entry).map Entry.name)).map Option.some
  | some es => (unlinkAll es (es.map Entry.name)).map Option.some

theorem unlinkAll_self (es : List Entry) (res : List Entry)
    (h : unlinkAll es (es.map Entry.name) = Except.ok res) : res = [] := by
  induction es with
  | nil =>
      rw [List.map_nil, unlinkAll] at h
      exact (Except.ok.inj h).symm
  | cons e rest ih =>
      rw [List.map_cons, unlinkAll] at h
      rw [unlinkEntry, if_pos rfl] at h
      by_cases hf : e.isFile
      · rw [if_pos hf] at h
        exact ih h
      · rw [if_neg hf] at h
        exact Except.noConfusion h

/-!
## Concrete executions used by the claim theorems
-/

/-- A sample monitoring configuration: motion streaming enabled, one minute
of streaming per session. -/
def sampleConfig : Config := ⟨"initialToken", true, 1⟩

/-- Doorbell trigger accepted, directory cleaned, external session 0
created. -/
def activeTrace : List Event :=
  [Event.trigger TriggerKind.ring, Event.cleanupDone, Event.createOk]

/-- Doorbell trigger accepted, directory cleaned, external session creation
rejected. -/
def failTrace : List Event :=
  [Event.trigger TriggerKind.ring, Event.cleanupDone, Event.createFail]

/-- Session 0 created and ended early; session 1 created; then the
never-cancelled timeout of session 0 fires. -/
def staleSessionTimerTrace : List Event :=
  [Event.trigger TriggerKind.ring, Event.cleanupDone, Event.createOk,
   Event.callEnded 0,
   Event.trigger TriggerKind.ring, Event.cleanupDone, Event.createOk,
   Event.sessionTimerFire 0]

/-- Session 0 created and ended early (watcher generation 0 closed); a
second attempt arms watcher generation 1. -/
def staleWatcherTimerTrace : List Event :=
  [Event.trigger TriggerKind.ring, Event.cleanupDone, Event.createOk,
   Event.callEnded 0,
   Event.trigger TriggerKind.ring, Event.cleanupDone]

/-- The readiness window lapses (the 15-second timer fires with no file
observed), then the external call ends. -/
def lapsedWatchTrace : List Event :=
  [Event.trigger TriggerKind.ring, Event.cleanupDone, Event.createOk,
   Event.watcherTimerFire 0, Event.callEnded 0]

/-!
## Claims
-/

/-- C1: for every sequence of trigger events, at most one Session is in a
non-Idle state at any instant; and a trigger arriving while the
`sessionRunning` flag is held (set synchronously before any suspension of
`startSession`) leaves the state completely unchanged — it is dropped. -/
theorem c1_exclusivity :
    (∀ (cfg : Config) (evs : List Event),
        nonIdleCount (run (init cfg) evs).attempts ≤ 1) ∧
    (∀ (s : HelperState) (k : TriggerKind),
        s.sessionRunning = true → step s (Event.trigger k) = s) := by
  constructor
  · exact fun cfg evs => invA_nonIdle_le_one (invA_run evs (invA_init cfg))
  · intro s k hr
    cases k with
    | ring =>
        simp only [step, triggerStep, startSessionSync, hr, Bool.or_true]
        split <;> simp
    | motion b =>
        simp only [step, triggerStep, startSessionSync, hr, Bool.or_true]
        split
        · split <;> simp
        · rfl

/-- Witness for C1: after one accepted trigger the running flag is held,
and a second trigger arriving then is dropped without any state change. -/
theorem c1_exclusivity_witness :
    (run (init sampleConfig) [Event.trigger TriggerKind.ring]).sessionRunning
        = true ∧
    step (run (init sampleConfig) [Event.trigger TriggerKind.ring])
        (Event.trigger TriggerKind.ring) =
      run (init sampleConfig) [Event.trigger TriggerKind.ring] :=
  ⟨by decide,
   c1_exclusivity.2 (run (init sampleConfig) [Event.trigger TriggerKind.ring])
     TriggerKind.ring (by decide)⟩

/-- C2: per arming of the readiness watcher (each arming gets a fresh
generation), `VIDEO_STREAM_AVAILABLE` is recorded at most once on every
execution; and once a generation is not the armed one (disarmed by
`stopWatchingFile`, however reached), no step can ever record a readiness
emission for it again. -/
theorem c2_at_most_once_ready :
    (∀ (cfg : Config) (evs : List Event) (g : Nat),
        ((run (init cfg) evs).availGens.count g) ≤ 1) ∧
    (∀ (s : HelperState) (e : Event) (g : Nat),
        s.watcher ≠ some g →
        (step s e).availGens.count g = s.availGens.count g) :=
  ⟨fun cfg evs g => (invB_run evs (invB_init cfg)).1 g,
   fun _ e g h => availCount_stable_of_disarmed e g h⟩

/-- Witness for C2: in the freshly initialized state no watcher is armed,
and a matching file event records no readiness emission. -/
theorem c2_at_most_once_ready_witness :
    (init sampleConfig).watcher ≠ some 0 ∧
    (step (init sampleConfig)
        (Event.fileAdd "stream.m3u8")).availGens.count 0 =
      (init sampleConfig).availGens.count 0 :=
  ⟨by decide,
   c2_at_most_once_ready.2 (init sampleConfig)
     (Event.fileAdd "stream.m3u8") 0 (by decide)⟩

/-- C3 (refuting the claimed cancellation): the source never cancels
either timer.  After session 0 ends early its 60000 ms timeout is still
pending; when it later fires while session 1 is current, it calls
`stop()` on session 1 (stop request recorded as (timer owner 0, stopped
handle 1)).  Likewise the 15-second watcher timer of generation 0
survives the closure of generation 0 and, firing later, closes the
newly-armed generation-1 watcher. -/
theorem c3_stale_timers_fire :
    ((run (init sampleConfig)
        [Event.trigger TriggerKind.ring, Event.cleanupDone, Event.createOk,
         Event.callEnded 0]).sessionTimers = [⟨0, 60000⟩]) ∧
    ((run (init sampleConfig) staleSessionTimerTrace).stopRequests
        = [(0, 1)]) ∧
    ((run (init sampleConfig) staleWatcherTimerTrace).watcher = some 1) ∧
    ((run (init sampleConfig)
        (staleWatcherTimerTrace ++ [Event.watcherTimerFire 0])).watcher
        = none) := by
  refine ⟨by decide, by decide, by decide, by decide⟩

/-- C4: whenever `createRtpStreamingSession` rejects, the state after the
`catch` block has the exclusivity flag released, no session handle, no
non-Idle Session, an unchanged notification list (neither
`VIDEO_STREAM_AVAILABLE` nor `VIDEO_STREAM_ENDED` was sent), and one more
log line. -/
theorem c4_creation_failure_contained (cfg : Config) (evs : List Event)
    (h : (run (init cfg) evs).phase = Phase.creating) :
    (step (run (init cfg) evs) Event.createFail).sessionRunning = false ∧
    (step (run (init cfg) evs) Event.createFail).sipSession = none ∧
    nonIdleCount (step (run (init cfg) evs) Event.createFail).attempts = 0 ∧
    (step (run (init cfg) evs) Event.createFail).emitted =
      (run (init cfg) evs).emitted ∧
    (step (run (init cfg) evs) Event.createFail).logs =
      (run (init cfg) evs).logs + 1 := by
  obtain ⟨h1, h2, h3⟩ := invA_run evs (invA_init cfg)
  have hsip : (run (init cfg) evs).sipSession = none :=
    (h3 (by rw [h]; exact fun hc => Phase.noConfusion hc)).2
  have hstep : step (run (init cfg) evs) Event.createFail =
      { run (init cfg) evs with
          phase := Phase.idle
          sessionRunning := false
          logs := (run (init cfg) evs).logs + 1
          attempts := setHead (run (init cfg) evs).attempts AState.idle } := by
    show createFailStep (run (init cfg) evs) = _
    rw [createFailStep, if_pos h]
  rw [hstep]
  exact ⟨rfl, hsip, (nonIdleCount_setHead_idle _).trans h1, rfl, rfl⟩

/-- Witness for C4: a concrete run reaching the `creating` phase, with the
containment conclusions evaluated there. -/
theorem c4_creation_failure_contained_witness :
    (run (init sampleConfig)
        [Event.trigger TriggerKind.ring, Event.cleanupDone]).phase
      = Phase.creating ∧
    ((step (run (init sampleConfig)
        [Event.trigger TriggerKind.ring, Event.cleanupDone])
        Event.createFail).sessionRunning = false ∧
     (step (run (init sampleConfig)
        [Event.trigger TriggerKind.ring, Event.cleanupDone])
        Event.createFail).sipSession = none ∧
     nonIdleCount (step (run (init sampleConfig)
        [Event.trigger TriggerKind.ring, Event.cleanupDone])
        Event.createFail).attempts = 0 ∧
     (step (run (init sampleConfig)
        [Event.trigger TriggerKind.ring, Event.cleanupDone])
        Event.createFail).emitted =
       (run (init sampleConfig)
        [Event.trigger TriggerKind.ring, Event.cleanupDone]).emitted ∧
     (step (run (init sampleConfig)
        [Event.trigger TriggerKind.ring, Event.cleanupDone])
        Event.createFail).logs =
       (run (init sampleConfig)
        [Event.trigger TriggerKind.ring, Event.cleanupDone]).logs + 1) :=
  ⟨by decide,
   c4_creation_failure_contained sampleConfig
     [Event.trigger TriggerKind.ring, Event.cleanupDone] (by decide)⟩

/-- C5 counterexample: a complete creation-failure execution emits no
notification at all — in particular no Error notification is emitted,
contrary to the claim. -/
theorem c5_no_error_notification_counterexample :
    (run (init sampleConfig) failTrace).emitted = [] ∧
    (run (init sampleConfig) failTrace).sessionRunning = false := by
  refine ⟨by decide, by decide⟩

/-- C5 as amended: on every external session-creation failure the Session
returns to Idle immediately (flag released, no handle, continuation gone)
and the error is logged, but no notification of any kind is emitted and no
retry is started (no new attempt appears). -/
theorem c5_creation_failure_logs_only (cfg : Config) (evs : List Event)
    (h : (run (init cfg) evs).phase = Phase.creating) :
    (step (run (init cfg) evs) Event.createFail).phase = Phase.idle ∧
    (step (run (init cfg) evs) Event.createFail).sessionRunning = false ∧
    (step (run (init cfg) evs) Event.createFail).sipSession = none ∧
    (step (run (init cfg) evs) Event.createFail).emitted =
      (run (init cfg) evs).emitted ∧
    (step (run (init cfg) evs) Event.createFail).logs =
      (run (init cfg) evs).logs + 1 ∧
    (step (run (init cfg) evs) Event.createFail).attempts.length =
      (run (init cfg) evs).attempts.length := by
  obtain ⟨h1, h2, h3⟩ := invA_run evs (invA_init cfg)
  have hsip : (run (init cfg) evs).sipSession = none :=
    (h3 (by rw [h]; exact fun hc => Phase.noConfusion hc)).2
  have hstep : step (run (init cfg) evs) Event.createFail =
      { run (init cfg) evs with
          phase := Phase.idle
          sessionRunning := false
          logs := (run (init cfg) evs).logs + 1
          attempts := setHead (run (init cfg) evs).attempts AState.idle } := by
    show createFailStep (run (init cfg) evs) = _
    rw [createFailStep, if_pos h]
  rw [hstep]
  refine ⟨rfl, rfl, hsip, rfl, rfl, ?_⟩
  cases hl : (run (init cfg) evs).attempts <;> simp [setHead, hl]

/-- Witness for the amended statement of C5, at the concrete failing run. -/
theorem c5_creation_failure_logs_only_witness :
    (run (init sampleConfig)
        [Event.trigger TriggerKind.ring, Event.cleanupDone]).phase
      = Phase.creating ∧
    (step (run (init sampleConfig)
        [Event.trigger TriggerKind.ring, Event.cleanupDone])
        Event.createFail).phase = Phase.idle :=
  ⟨by decide,
   (c5_creation_failure_logs_only sampleConfig
     [Event.trigger TriggerKind.ring, Event.cleanupDone] (by decide)).1⟩

/-- C6 counterexample: after a creation failure the watcher armed for the
attempt is still active although no Session is non-Idle any more — an
active WatchTask exists while the Session is not in Starting state. -/
theorem c6_watcher_outlives_starting_counterexample :
    (run (init sampleConfig) failTrace).watcher = some 0 ∧
    (run (init sampleConfig) failTrace).sessionRunning = false ∧
    (run (init sampleConfig) failTrace).sipSession = none ∧
    nonIdleCount (run (init sampleConfig) failTrace).attempts = 0 := by
  refine ⟨by decide, by decide, by decide, by decide⟩

/-- C6 as amended: at most one WatchTask is active at a time — arming
closes any previous watcher and installs exactly one fresh generation —
but an active WatchTask is not confined to the Starting state: it remains
armed after the Session becomes Active, until file observation, its
15-second timer, or session end disarms it. -/
theorem c6_single_watcher_not_confined_to_starting :
    (∀ s : HelperState, (watchForStreamStarted s).watcher = some s.nextGen) ∧
    ((run (init sampleConfig) activeTrace).watcher = some 0 ∧
     (run (init sampleConfig) activeTrace).sipSession = some 0 ∧
     (run (init sampleConfig) activeTrace).phase = Phase.idle) ∧
    (step (run (init sampleConfig) activeTrace) (Event.callEnded 0)).watcher
      = none := by
  refine ⟨fun s => rfl, ⟨by decide, by decide, by decide⟩, by decide⟩

/-- C7: credential rotation — an absent or empty old value leaves the
stored content untouched; otherwise the first occurrence of the old value
in the stored content is substituted with the new value; in particular
`RING_2FA_REFRESH_TOKEN=ABC` rotated from `ABC` to `XYZ` becomes
`RING_2FA_REFRESH_TOKEN=XYZ`. -/
theorem c7_rotation_substitution :
    (∀ (stored newTok : String), rotateToken stored none newTok = stored) ∧
    (∀ (stored newTok : String),
        rotateToken stored (some "") newTok = stored) ∧
    (∀ (a o b n : List Char), o ≠ [] →
        (∀ i, i < a.length →
          (o.isPrefixOf ((a ++ (o ++ b)).drop i)) = false) →
        rotateToken (String.mk (a ++ (o ++ b))) (some (String.mk o))
            (String.mk n)
          = String.mk (a ++ (n ++ b))) ∧
    rotateToken "RING_2FA_REFRESH_TOKEN=ABC" (some "ABC") "XYZ"
      = "RING_2FA_REFRESH_TOKEN=XYZ" := by
  refine ⟨fun _ _ => rfl, fun stored newTok => by simp [rotateToken], ?_,
    by decide⟩
  intro a o b n ho hmin
  have hne : String.mk o ≠ "" := by
    intro hc
    exact ho (congrArg String.data hc)
  simp only [rotateToken, if_neg hne, replaceFirst]
  exact congrArg String.mk (replaceFirstList_at_first a o b n hmin)

/-- Witness for C7: the example given in the spec, decomposed as head part
`RING_2FA_REFRESH_TOKEN=`, old value `ABC`, empty suffix — no earlier
occurrence of the old value exists, and the rotation substitutes it. -/
theorem c7_rotation_substitution_witness :
    ("ABC".data ≠ ([] : List Char) ∧
     (∀ i, i < ("RING_2FA_REFRESH_TOKEN=".data).length →
        (("ABC".data).isPrefixOf
          ((("RING_2FA_REFRESH_TOKEN=".data) ++
            (("ABC".data) ++ ([] : List Char))).drop i)) = false)) ∧
    rotateToken
        (String.mk (("RING_2FA_REFRESH_TOKEN=".data) ++
          (("ABC".data) ++ ([] : List Char))))
        (some (String.mk "ABC".data)) (String.mk "XYZ".data)
      = String.mk (("RING_2FA_REFRESH_TOKEN=".data) ++
          (("XYZ".data) ++ ([] : List Char))) :=
  ⟨⟨by decide, by decide⟩,
   c7_rotation_substitution.2.2.1 "RING_2FA_REFRESH_TOKEN=".data "ABC".data
     ([] : List Char) "XYZ".data (by decide) (by decide)⟩

/-- C8: whenever `cleanUpVideoStreamDirectory` returns successfully, the
output directory exists and holds zero entries. -/
theorem c8_clean_directory_postcondition (dir : Option (List Entry))
    (d' : Option (List Entry))
    (h : cleanUpVideoStreamDirectory dir = Except.ok d') : d' = some [] := by
  cases dir with
  | none =>
      rw [cleanUpVideoStreamDirectory] at h
      simp only [List.map_nil, unlinkAll, Except.map] at h
      exact (Except.ok.inj h).symm
  | some es =>
      rw [cleanUpVideoStreamDirectory] at h
      cases hu : unlinkAll es (es.map Entry.name) with
      | error msg =>
          rw [hu] at h
          simp only [Except.map] at h
          exact Except.noConfusion h
      | ok r =>
          rw [hu] at h
          simp only [Except.map] at h
          rw [(Except.ok.inj h).symm, unlinkAll_self es r hu]

/-- Witness for C8: cleaning a directory holding two flat transcoder
output files succeeds and leaves it existing and empty. -/
theorem c8_clean_directory_postcondition_witness :
    cleanUpVideoStreamDirectory
        (some [⟨"stream.m3u8", true⟩, ⟨"seg0.ts", true⟩]) =
      Except.ok (some []) ∧
    (some ([] : List Entry)) = some [] :=
  ⟨rfl,
   c8_clean_directory_postcondition
     (some [⟨"stream.m3u8", true⟩, ⟨"seg0.ts", true⟩]) (some []) rfl⟩

/-- C9: the `onCallEnded` subscriber appends `VIDEO_STREAM_ENDED`
unconditionally — no readiness check guards it — and on the execution
where the readiness window lapses without the playlist file appearing,
the UI receives `VIDEO_STREAM_ENDED` with no preceding
`VIDEO_STREAM_AVAILABLE` for the session. -/
theorem c9_ended_without_available :
    (∀ (s : HelperState) (sid : Nat), s.sipSession = some sid →
        (step s (Event.callEnded sid)).emitted =
          s.emitted ++ [Notif.videoStreamEnded]) ∧
    ((run (init sampleConfig) lapsedWatchTrace).emitted
        = [Notif.videoStreamEnded] ∧
     (run (init sampleConfig) lapsedWatchTrace).availGens = []) := by
  constructor
  · intro s sid h
    simp only [step, callEndedStep, if_pos h]
  · exact ⟨by decide, by decide⟩

/-- Witness for C9: the unconditional-emission statement applied at the
concrete Active state of session 0. -/
theorem c9_ended_without_available_witness :
    (run (init sampleConfig) activeTrace).sipSession = some 0 ∧
    (step (run (init sampleConfig) activeTrace) (Event.callEnded 0)).emitted =
      (run (init sampleConfig) activeTrace).emitted ++
        [Notif.videoStreamEnded] :=
  ⟨by decide,
   c9_ended_without_available.1 (run (init sampleConfig) activeTrace) 0
     (by decide)⟩

/-- C10: every arming of the readiness watcher schedules a timer of
exactly `15 * 1000` milliseconds, whatever the state (in particular
whatever the configuration); and the firing of a pending watcher timer
emits nothing and leaves the watcher disarmed. -/
theorem c10_fixed_watch_window :
    (∀ s : HelperState,
        (watchForStreamStarted s).watcherTimers =
          ⟨s.nextGen, 15 * 1000⟩ :: s.watcherTimers) ∧
    (∀ (s : HelperState) (o : Nat),
        (step s (Event.watcherTimerFire o)).emitted = s.emitted) ∧
    (∀ (s : HelperState) (o : Nat),
        (s.watcherTimers.any fun t => t.owner = o) = true →
        (step s (Event.watcherTimerFire o)).watcher = none) := by
  refine ⟨fun s => rfl, ?_, ?_⟩
  · intro s o
    simp only [step, watcherTimerFireStep, stopWatchingFile]
    split <;> rfl
  · intro s o h
    simp only [step, watcherTimerFireStep, stopWatchingFile, if_pos h]

/-- Witness for C10: right after arming, the generation-0 timer is
pending, and its firing disarms the watcher. -/
theorem c10_fixed_watch_window_witness :
    ((run (init sampleConfig)
        [Event.trigger TriggerKind.ring,
         Event.cleanupDone]).watcherTimers.any fun t => t.owner = 0) = true ∧
    (step (run (init sampleConfig)
        [Event.trigger TriggerKind.ring, Event.cleanupDone])
        (Event.watcherTimerFire 0)).watcher = none :=
  ⟨by decide,
   c10_fixed_watch_window.2.2
     (run (init sampleConfig)
       [Event.trigger TriggerKind.ring, Event.cleanupDone]) 0 (by decide)⟩

end MMMRing
